import Mathlib

/-!
Verification of the iris shape-placement collision engine.

The repository contains three Python variants of the engine:
`main.py` (SAT + ray-casting containment), `v1.py` (multi-level
Manhattan/circle/box filter pipeline) and `bounding.py` (box-only).
This file gives a shallow embedding of the functions the claims are
about.  Scalars are modelled as rationals; Python's float square root
`** 0.5` is modelled by `Rat.sqrt` (exact on perfect squares, which
covers every concrete input evaluated below; the verdicts of the
concrete evaluations below do not depend on rounding of the root).
-/

/-- A 2D point / vector, as a pair of rationals. -/
abbrev Point : Type := ℚ × ℚ

/-- A turtle shape.  `ref` models Python object identity (turtle objects
compare by identity under `==`), `x`,`y` are the turtle position
(`xcor()`/`ycor()`), `stretch_wid`/`stretch_len` the `shapesize()` pair, and
`poly` the vertex list returned by `get_shapepoly()`. -/
structure Shape where
  ref : Nat
  x : ℚ
  y : ℚ
  stretch_wid : ℚ
  stretch_len : ℚ
  poly : List Point

/-- Python `min` over a list (faults on `[]` in Python; every call site in the
source passes a nonempty vertex list, the `[]` default is unreachable). -/
def listMin : List ℚ → ℚ
  | [] => 0
  | a :: rest => rest.foldl min a

/-- Python `max` over a list (same nonemptiness remark as `listMin`). -/
def listMax : List ℚ → ℚ
  | [] => 0
  | a :: rest => rest.foldl max a

/-- `[x for x,y in poly]`. -/
def xsOf (poly : List Point) : List ℚ := poly.map Prod.fst

/-- `[y for x,y in poly]`. -/
def ysOf (poly : List Point) : List ℚ := poly.map Prod.snd

namespace MainPy

/-- `main.py` `box`: bounding box of a shape's polygon, as
`((x_min, x_max), (y_min, y_max))`. -/
def box (poly : List Point) : (ℚ × ℚ) × (ℚ × ℚ) :=
  ((listMin (xsOf poly), listMax (xsOf poly)),
   (listMin (ysOf poly), listMax (ysOf poly)))

/-- `main.py` `box_check`: True iff the two bounding boxes overlap
(touching included: the separation comparisons are strict). -/
def box_check (bounding_box1 bounding_box2 : (ℚ × ℚ) × (ℚ × ℚ)) : Bool :=
  !(decide (bounding_box1.1.2 < bounding_box2.1.1) ||
    decide (bounding_box2.1.2 < bounding_box1.1.1) ||
    decide (bounding_box1.2.2 < bounding_box2.2.1) ||
    decide (bounding_box2.2.2 < bounding_box1.2.1))

/-- Projection interval `(min, max)` of a polygon onto an axis: the two
running extrema of the dot products, exactly as the loop in
`is_separating_axis` computes them (Python faults on an empty polygon;
the `[]` default is unreachable in the source's usage). -/
def project (poly : List Point) (axis : Point) : ℚ × ℚ :=
  match poly with
  | [] => (0, 0)
  | p :: rest =>
    rest.foldl
      (fun mm q =>
        (min mm.1 (q.1 * axis.1 + q.2 * axis.2),
         max mm.2 (q.1 * axis.1 + q.2 * axis.2)))
      (p.1 * axis.1 + p.2 * axis.2, p.1 * axis.1 + p.2 * axis.2)

/-- `main.py` `is_separating_axis`.  NOTE: despite its name and docstring,
the source returns `not (max1 < min2 or max2 < min1)`, i.e. True when the
two projection intervals OVERLAP on the axis. -/
def is_separating_axis (poly1 poly2 : List Point) (axis : Point) : Bool :=
  !(decide ((project poly1 axis).2 < (project poly2 axis).1) ||
    decide ((project poly2 axis).2 < (project poly1 axis).1))

/-- `main.py` `get_edges`: the pairs `(poly[i], poly[(i+1) % n])`. -/
def get_edges (poly : List Point) : List (Point × Point) :=
  poly.zip (poly.rotate 1)

/-- `main.py` `normalize`: scale a vector to unit length, zero vector for a
zero-length input. -/
def normalize (vector : Point) : Point :=
  let length := Rat.sqrt (vector.1 ^ 2 + vector.2 ^ 2)
  if length = 0 then (0, 0) else (vector.1 / length, vector.2 / length)

/-- `main.py` `get_axes`: normalized edge normals `(-edge_y, edge_x)`. -/
def get_axes (poly : List Point) : List Point :=
  (get_edges poly).map
    (fun e => normalize (-(e.2.2 - e.1.2), e.2.1 - e.1.1))

/-- `main.py` `sat_check`: returns False as soon as `is_separating_axis`
answers True for some candidate axis, True otherwise. -/
def sat_check (poly1 poly2 : List Point) : Bool :=
  !((get_axes poly1 ++ get_axes poly2).any
      (fun axis => is_separating_axis poly1 poly2 axis))

/-- One iteration of the `ray_check` edge loop: skip edges that do not
straddle the query latitude, otherwise compute the crossing x and toggle
the inside flag when the query x is to its left (or equal). -/
def ray_step (x y : ℚ) (inside : Bool) (e : Point × Point) : Bool :=
  if (decide (e.1.2 > y)) = (decide (e.2.2 > y)) then inside
  else
    if x ≤ (y - e.1.2) * (e.2.1 - e.1.1) / (e.2.2 - e.1.2) + e.1.1 then
      !inside
    else inside

/-- `main.py` `ray_check`: ray-casting point-in-polygon parity test. -/
def ray_check (point : Point) (polygon : List Point) : Bool :=
  (get_edges polygon).foldl (ray_step point.1 point.2) false

/-- Instrumented `ray_step`: identical control flow, but returns `none`
(the Python `ZeroDivisionError`) if the crossing-x division were ever
attempted with a zero divisor `y2 - y1`. -/
def ray_stepD (x y : ℚ) (inside : Bool) (e : Point × Point) : Option Bool :=
  if (decide (e.1.2 > y)) = (decide (e.2.2 > y)) then some inside
  else
    if e.2.2 - e.1.2 = 0 then none
    else
      if x ≤ (y - e.1.2) * (e.2.1 - e.1.1) / (e.2.2 - e.1.2) + e.1.1 then
        some (!inside)
      else some inside

/-- `ray_check` with division-by-zero instrumented as `Option`. -/
def ray_checkD (point : Point) (polygon : List Point) : Option Bool :=
  (get_edges polygon).foldl
    (fun acc e => acc.bind (fun ins => ray_stepD point.1 point.2 ins e))
    (some false)

/-- `main.py` `contains`: every vertex of `poly2` passes `ray_check`
against `poly1`. -/
def contains (poly1 poly2 : List Point) : Bool :=
  poly2.all (fun v => ray_check v poly1)

/-- `main.py` `contain_check`: bounding-box prefiltered two-directional
containment test, returning `(poly1 ⊇ poly2, poly2 ⊇ poly1)`. -/
def contain_check (poly1 poly2 : List Point) : Bool × Bool :=
  let x1_min := listMin (xsOf poly1); let x1_max := listMax (xsOf poly1)
  let y1_min := listMin (ysOf poly1); let y1_max := listMax (ysOf poly1)
  let x2_min := listMin (xsOf poly2); let x2_max := listMax (xsOf poly2)
  let y2_min := listMin (ysOf poly2); let y2_max := listMax (ysOf poly2)
  let contain_1to2 :=
    if x2_min < x1_min || x2_max > x1_max || y2_min < y1_min || y2_max > y1_max
    then false else contains poly1 poly2
  let contain_2to1 :=
    if x1_min < x2_min || x1_max > x2_max || y1_min < y2_min || y1_max > y2_max
    then false else contains poly2 poly1
  (contain_1to2, contain_2to1)

/-- The `possible_containment` condition computed inside
`main.py` `is_shape_overlapped_any`: one polygon's extents lie within the
other's (inclusive), in either direction. -/
def possible_containment (shape_poly other_poly : List Point) : Bool :=
  (decide (listMin (xsOf shape_poly) ≥ listMin (xsOf other_poly)) &&
   decide (listMax (xsOf shape_poly) ≤ listMax (xsOf other_poly)) &&
   decide (listMin (ysOf shape_poly) ≥ listMin (ysOf other_poly)) &&
   decide (listMax (ysOf shape_poly) ≤ listMax (ysOf other_poly))) ||
  (decide (listMin (xsOf other_poly) ≥ listMin (xsOf shape_poly)) &&
   decide (listMax (xsOf other_poly) ≤ listMax (xsOf shape_poly)) &&
   decide (listMin (ysOf other_poly) ≥ listMin (ysOf shape_poly)) &&
   decide (listMax (ysOf other_poly) ≤ listMax (ysOf shape_poly)))

/-- Body of the `main.py` `is_shape_overlapped_any` loop for one scene
member: bounding boxes first; if they overlap, either the two-directional
vertex containment test (when `possible_containment`) or — only otherwise
(`elif` in the source) — `sat_check`. -/
def pair_collides (shape_poly other_poly : List Point) : Bool :=
  if box_check (box shape_poly) (box other_poly) then
    if possible_containment shape_poly other_poly then
      contains shape_poly other_poly || contains other_poly shape_poly
    else
      sat_check shape_poly other_poly
  else false

/-- `main.py` `is_shape_overlapped_any`: iterate the scene, skip the
candidate itself (identity comparison), return True on the first
colliding member. -/
def is_shape_overlapped_any (shape : Shape) : List Shape → Bool
  | [] => false
  | other :: rest =>
    if other.ref = shape.ref then is_shape_overlapped_any shape rest
    else
      if pair_collides shape.poly other.poly then true
      else is_shape_overlapped_any shape rest

end MainPy

namespace V1

/-- `v1.py` bounds are `(left, right, bottom, top)`. -/
abbrev Box4 : Type := ℚ × ℚ × ℚ × ℚ

/-- `BOX_SEPARATE = 0`. -/
def BOX_SEPARATE : Nat := 0
/-- `BOX_OVERLAP = 1`. -/
def BOX_OVERLAP : Nat := 1
/-- `BOX_A_INSIDE_B = 2`. -/
def BOX_A_INSIDE_B : Nat := 2
/-- `BOX_B_INSIDE_A = 3`. -/
def BOX_B_INSIDE_A : Nat := 3

/-- `CIRCLE_SEPARATE = 0`. -/
def CIRCLE_SEPARATE : Nat := 0
/-- `CIRCLE_OVERLAP = 1`. -/
def CIRCLE_OVERLAP : Nat := 1
/-- `CIRCLE_A_INSIDE_B = 2`. -/
def CIRCLE_A_INSIDE_B : Nat := 2
/-- `CIRCLE_B_INSIDE_A = 3`. -/
def CIRCLE_B_INSIDE_A : Nat := 3

/-- `v1.py` `is_horizontally_separate`: strict x-interval disjointness. -/
def is_horizontally_separate (left_a right_a left_b right_b : ℚ) : Bool :=
  decide (right_a < left_b) || decide (right_b < left_a)

/-- `v1.py` `is_vertically_separate`: strict y-interval disjointness. -/
def is_vertically_separate (bottom_a top_a bottom_b top_b : ℚ) : Bool :=
  decide (top_a < bottom_b) || decide (top_b < bottom_a)

/-- `v1.py` `is_box_inside_another`: every edge of `inner` within or equal
to the corresponding edge of `outer`. -/
def is_box_inside_another (inner outer : Box4) : Bool :=
  decide (inner.1 ≥ outer.1) && decide (inner.2.1 ≤ outer.2.1) &&
  decide (inner.2.2.1 ≥ outer.2.2.1) && decide (inner.2.2.2 ≤ outer.2.2.2)

/-- `v1.py` `box_check`: four-way bounding-box classification. -/
def box_check (box_a box_b : Box4) : Nat :=
  if is_horizontally_separate box_a.1 box_a.2.1 box_b.1 box_b.2.1 ||
     is_vertically_separate box_a.2.2.1 box_a.2.2.2 box_b.2.2.1 box_b.2.2.2 then
    BOX_SEPARATE
  else
    if is_box_inside_another box_a box_b then BOX_A_INSIDE_B
    else
      if is_box_inside_another box_b box_a then BOX_B_INSIDE_A
      else BOX_OVERLAP

/-- `v1.py` `get_squared_distance`. -/
def get_squared_distance (point1 point2 : Point) : ℚ :=
  (point1.1 - point2.1) ^ 2 + (point1.2 - point2.2) ^ 2

/-- `v1.py` `get_shape_center`: `(xcor(), ycor())`. -/
def get_shape_center (shape : Shape) : Point := (shape.x, shape.y)

/-- `v1.py` `get_shape_dimensions`: fixed 30×30 base scaled by the stretch
factors, `(width, height) = (30 * stretch_len, 30 * stretch_wid)`. -/
def get_shape_dimensions (shape : Shape) : ℚ × ℚ :=
  (30 * shape.stretch_len, 30 * shape.stretch_wid)

/-- `v1.py` `get_shape_radius`: half-diagonal of the width×height box. -/
def get_shape_radius (shape : Shape) : ℚ :=
  let wh := get_shape_dimensions shape
  Rat.sqrt ((wh.1 / 2) ^ 2 + (wh.2 / 2) ^ 2)

/-- `v1.py` `calculate_bounds_from_center`. -/
def calculate_bounds_from_center (x y width height : ℚ) : Box4 :=
  (x - width / 2, x + width / 2, y - height / 2, y + height / 2)

/-- `v1.py` `get_shape_bounds`. -/
def get_shape_bounds (shape : Shape) : Box4 :=
  let wh := get_shape_dimensions shape
  calculate_bounds_from_center shape.x shape.y wh.1 wh.2

/-- `v1.py` `are_centers_close_enough`: Manhattan-distance prefilter with
safety factor 1.5. -/
def are_centers_close_enough (center : Point) (radius : ℚ) (shape : Shape) : Bool :=
  let x2 := shape.x; let y2 := shape.y
  let shape2_radius := get_shape_radius shape
  let max_distance := radius + shape2_radius
  decide (|center.1 - x2| + |center.2 - y2| ≤ 3 / 2 * max_distance)

/-- `v1.py` `get_circle_relationship`: four-way bounding-circle
classification from the squared center distance. -/
def get_circle_relationship (center1 : Point) (radius1 : ℚ)
    (center2 : Point) (radius2 : ℚ) : Nat :=
  let squared_distance := get_squared_distance center1 center2
  if squared_distance > (radius1 + radius2) ^ 2 then CIRCLE_SEPARATE
  else
    if squared_distance ≤ (radius2 - radius1) ^ 2 ∧ radius1 ≤ radius2 then
      CIRCLE_A_INSIDE_B
    else
      if squared_distance ≤ (radius1 - radius2) ^ 2 ∧ radius2 ≤ radius1 then
        CIRCLE_B_INSIDE_A
      else CIRCLE_OVERLAP

/-- Body of the `v1.py` `is_shape_overlapped_any` loop for one scene
member: Manhattan prefilter, then circle classification, then box
classification; collides iff the box tier answers non-`BOX_SEPARATE`. -/
def level_check (shape_center : Point) (shape_radius : ℚ)
    (shape_bounds : Box4) (existing_shape : Shape) : Bool :=
  if !(are_centers_close_enough shape_center shape_radius existing_shape) then
    false
  else
    if get_circle_relationship shape_center shape_radius
        (get_shape_center existing_shape) (get_shape_radius existing_shape)
        = CIRCLE_SEPARATE then false
    else
      !(box_check shape_bounds (get_shape_bounds existing_shape) == BOX_SEPARATE)

/-- The `v1.py` scene loop: returns True on the first member whose
three-level check reports a collision. -/
def overlapped_loop (shape_center : Point) (shape_radius : ℚ)
    (shape_bounds : Box4) : List Shape → Bool
  | [] => false
  | existing_shape :: rest =>
    if level_check shape_center shape_radius shape_bounds existing_shape then
      true
    else overlapped_loop shape_center shape_radius shape_bounds rest

/-- Python's `shape in shapes` on turtle objects: identity membership. -/
def refMem (shape : Shape) (shapes : List Shape) : Bool :=
  shapes.any (fun o => o.ref == shape.ref)

/-- `v1.py` `is_shape_overlapped_any`: returns False immediately when the
scene is empty or the candidate is (by identity) a member of the scene;
otherwise runs the multi-level loop. -/
def is_shape_overlapped_any (shape : Shape) (shapes : List Shape) : Bool :=
  if shapes.isEmpty || refMem shape shapes then false
  else
    overlapped_loop (get_shape_center shape) (get_shape_radius shape)
      (get_shape_bounds shape) shapes

end V1

/-! Concrete fixtures used by the evaluations below. -/

/-- The axis-aligned unit square with corners `(0,0)` and `(1,1)`. -/
def unitSq : List Point := [(0, 0), (1, 0), (1, 1), (0, 1)]

/-- The unit square translated by `(10, 10)`: disjoint from `unitSq` on
both coordinate axes. -/
def farSq : List Point := [(10, 10), (11, 10), (11, 11), (10, 11)]

/-- A shape (identity 0) carrying `unitSq`, centered at the origin with
stretch pair `(wid, len) = (3, 4)`, so its `v1.py` dimensions are
`120 × 90` and its `v1.py` bounding radius is exactly
`Rat.sqrt (60² + 45²) = 75`. -/
def candA : Shape := ⟨0, 0, 0, 3, 4, unitSq⟩

/-- A second, distinct shape (identity 1) with the same polygon, position
and stretch as `candA`. -/
def candB : Shape := ⟨1, 0, 0, 3, 4, unitSq⟩

/-- A third shape (identity 2) with the same position and stretch as
`candA` but an empty vertex list. -/
def candEmpty : Shape := ⟨2, 0, 0, 3, 4, []⟩

set_option maxHeartbeats 4000000 in
/-- C1: the claim states the standard SAT contract — `Separate` as soon as
some candidate axis yields disjoint projection intervals, `Overlapping`
exactly when no axis does.  The code has it inverted (`is_separating_axis`
returns True when the projections OVERLAP, contradicting its own
docstring): for two coincident unit squares every candidate axis has
overlapping (indeed equal) projection intervals — so no separating axis
exists and the claimed verdict is `Overlapping` — yet `sat_check` returns
`false` (`Separate`); for two diagonally separated unit squares every
candidate axis yields disjoint intervals — claimed verdict `Separate` —
yet `sat_check` returns `true` (`Overlapping`). -/
theorem sat_check_polarity_inverted :
    MainPy.sat_check unitSq unitSq = false
    ∧ (MainPy.get_axes unitSq ++ MainPy.get_axes unitSq).all
        (fun a => MainPy.is_separating_axis unitSq unitSq a) = true
    ∧ MainPy.sat_check unitSq farSq = true
    ∧ (MainPy.get_axes unitSq ++ MainPy.get_axes farSq).all
        (fun a => !(MainPy.is_separating_axis unitSq farSq a)) = true := by
  refine ⟨?_, ?_, ?_, ?_⟩ <;>
    norm_num [MainPy.sat_check, MainPy.get_axes, MainPy.get_edges, MainPy.normalize,
      MainPy.is_separating_axis, MainPy.project, List.rotate, unitSq, farSq]

set_option maxHeartbeats 4000000 in
/-- C4: the claim states that a broad-phase `Separate` verdict implies the
narrow-phase pipeline also reports `Separate`, in particular that disjoint
bounding boxes imply the SAT test does not report `Overlapping`.  For
`unitSq` and `farSq` the bounding boxes are disjoint (`box_check` is
`false`, i.e. broad-phase `Separate`) and both exact containment
directions fail, yet the code's `sat_check` returns `true`
(`Overlapping`) — the same polarity slip as in `is_separating_axis`. -/
theorem box_disjoint_yet_sat_reports_overlap :
    MainPy.box_check (MainPy.box unitSq) (MainPy.box farSq) = false
    ∧ MainPy.contains unitSq farSq = false
    ∧ MainPy.contains farSq unitSq = false
    ∧ MainPy.sat_check unitSq farSq = true := by
  refine ⟨by decide, ?_, ?_, ?_⟩ <;>
    norm_num [MainPy.sat_check, MainPy.get_axes, MainPy.get_edges, MainPy.normalize,
      MainPy.is_separating_axis, MainPy.project, MainPy.contains, MainPy.ray_check,
      MainPy.ray_step, List.rotate, unitSq, farSq]

/-- C9: polygon containment as implemented is not reflexive.  For the
axis-aligned unit square (a simple polygon with 4 ≥ 3 vertices) the
ray-casting test classifies its own vertex `(0,0)` as outside, so
`contains unitSq unitSq` is `false`, and the exact containment tier
(`contain_check`) reports that two coincident squares contain each other
in neither direction. -/
theorem contains_not_reflexive_on_square :
    3 ≤ unitSq.length
    ∧ MainPy.ray_check (0, 0) unitSq = false
    ∧ MainPy.contains unitSq unitSq = false
    ∧ MainPy.contain_check unitSq unitSq = (false, false) := by
  refine ⟨?_, ?_, ?_, ?_⟩ <;>
    norm_num [MainPy.contain_check, MainPy.contains, MainPy.ray_check, MainPy.ray_step,
      MainPy.get_edges, listMin, listMax, xsOf, ysOf, List.rotate, unitSq]

set_option maxHeartbeats 1000000 in
/-- C2 counterexample: the claim states that when the bounding boxes
indicate possible containment but the exact vertex-containment test fails
in both directions, the classifier falls through to the SAT test, so the
pair is given verdict `Overlapping` when no separating axis exists.  For
two coincident unit squares `possible_containment` holds, both exact
containment directions fail, and no candidate axis yields disjoint
projections (every axis's projection intervals overlap — the spec-side
SAT verdict is `Overlapping`), yet `is_shape_overlapped_any` returns
`false`: the source guards the SAT call with `elif`, so a failed
containment tier skips SAT entirely. -/
theorem containment_tier_skips_sat_cex :
    MainPy.possible_containment unitSq unitSq = true
    ∧ MainPy.contains unitSq unitSq = false
    ∧ (MainPy.get_axes unitSq ++ MainPy.get_axes unitSq).all
        (fun a => MainPy.is_separating_axis unitSq unitSq a) = true
    ∧ MainPy.pair_collides unitSq unitSq = false
    ∧ MainPy.is_shape_overlapped_any candA [candB] = false := by
  refine ⟨?_, ?_, ?_, ?_, ?_⟩ <;>
    norm_num [MainPy.is_shape_overlapped_any, MainPy.pair_collides, MainPy.box_check,
      MainPy.box, MainPy.possible_containment, MainPy.contains, MainPy.ray_check,
      MainPy.ray_step, MainPy.get_edges, MainPy.get_axes, MainPy.normalize,
      MainPy.is_separating_axis, MainPy.project, listMin, listMax, xsOf, ysOf,
      List.rotate, unitSq, candA, candB]

/-- C2 amended: when the bounding boxes indicate possible containment and
the exact vertex-containment test fails in both directions, the
`main.py` classifier does NOT fall through to SAT: the pair contributes
no collision (it is treated as separate); SAT runs only when the boxes
overlap without the possible-containment configuration. -/
theorem containment_failure_skips_sat (p q : List Point)
    (h1 : MainPy.possible_containment p q = true)
    (h2 : MainPy.contains p q = false)
    (h3 : MainPy.contains q p = false) :
    MainPy.pair_collides p q = false := by
  simp [MainPy.pair_collides, h1, h2, h3]

/-- Witness for `containment_failure_skips_sat` at two coincident unit
squares. -/
theorem containment_failure_skips_sat_w :
    MainPy.possible_containment unitSq unitSq = true
    ∧ MainPy.pair_collides unitSq unitSq = false :=
  ⟨by norm_num [MainPy.possible_containment, listMin, listMax, xsOf, ysOf, unitSq],
   containment_failure_skips_sat unitSq unitSq
     (by norm_num [MainPy.possible_containment, listMin, listMax, xsOf, ysOf, unitSq])
     (by norm_num [MainPy.contains, MainPy.ray_check, MainPy.ray_step, MainPy.get_edges,
        List.rotate, unitSq])
     (by norm_num [MainPy.contains, MainPy.ray_check, MainPy.ray_step, MainPy.get_edges,
        List.rotate, unitSq])⟩

/-- Helper: one instrumented ray-cast step never reports a zero divisor,
because the straddling test already guarantees the two edge endpoints
differ in y. -/
theorem ray_stepD_eq_some (x y : ℚ) (inside : Bool) (e : Point × Point) :
    MainPy.ray_stepD x y inside e = some (MainPy.ray_step x y inside e) := by
  unfold MainPy.ray_stepD MainPy.ray_step
  by_cases h : (decide (e.1.2 > y)) = (decide (e.2.2 > y))
  · simp [h]
  · have hne : e.2.2 - e.1.2 ≠ 0 := by
      intro h0
      have hyy : e.2.2 = e.1.2 := by linarith [sub_eq_zero.mp h0]
      exact h (by rw [hyy])
    rw [if_neg h, if_neg h, if_neg hne]
    split <;> rfl

/-- Helper: the instrumented edge fold agrees with the plain edge fold. -/
theorem ray_foldD_eq_some (x y : ℚ) :
    ∀ (l : List (Point × Point)) (b : Bool),
      l.foldl (fun acc e => acc.bind (fun ins => MainPy.ray_stepD x y ins e))
          (some b)
        = some (l.foldl (MainPy.ray_step x y) b)
  | [], _ => rfl
  | e :: rest, b => by
    simp only [List.foldl_cons]
    rw [show ((some b).bind fun ins => MainPy.ray_stepD x y ins e)
          = MainPy.ray_stepD x y b e from rfl,
        ray_stepD_eq_some]
    exact ray_foldD_eq_some x y rest (MainPy.ray_step x y b e)

/-- C8: in the ray-casting point-in-polygon test, the division by
`y2 - y1` is only evaluated after the straddling test has failed, which
guarantees the divisor is nonzero: the instrumented semantics
`ray_checkD`, which signals a division by a zero divisor with `none`,
always returns `some` of the plain `ray_check` verdict — `ray_check`
never faults on a division by zero. -/
theorem ray_check_never_divides_by_zero (point : Point) (polygon : List Point) :
    MainPy.ray_checkD point polygon = some (MainPy.ray_check point polygon) := by
  unfold MainPy.ray_checkD MainPy.ray_check
  exact ray_foldD_eq_some point.1 point.2 (MainPy.get_edges polygon) false

/-- Helper: the `main.py` scene loop collides exactly when some scene
member other than the candidate itself (by identity) collides pairwise. -/
theorem mainpy_overlapped_iff (s : Shape) (L : List Shape) :
    MainPy.is_shape_overlapped_any s L = true ↔
      ∃ o ∈ L, o.ref ≠ s.ref ∧ MainPy.pair_collides s.poly o.poly = true := by
  induction L with
  | nil => simp [MainPy.is_shape_overlapped_any]
  | cons o rest ih =>
    by_cases h : o.ref = s.ref
    · simp [MainPy.is_shape_overlapped_any, h, ih]
    · by_cases hp : MainPy.pair_collides s.poly o.poly = true
      · simp [MainPy.is_shape_overlapped_any, h, hp]
      · simp [MainPy.is_shape_overlapped_any, h, hp, ih]

/-- Helper: the `v1.py` scene loop collides exactly when some scene member
passes all three filter levels. -/
theorem v1_loop_iff (c : Point) (r : ℚ) (b : V1.Box4) (L : List Shape) :
    V1.overlapped_loop c r b L = true ↔ ∃ o ∈ L, V1.level_check c r b o = true := by
  induction L with
  | nil => simp [V1.overlapped_loop]
  | cons o rest ih =>
    by_cases h : V1.level_check c r b o = true <;>
      simp [V1.overlapped_loop, h, ih]

/-- C3 counterexample: the claim states that a candidate identical by
reference to a scene member is only excluded from comparison against
itself and is still compared against every other member, its presence
causing neither rejection nor acceptance by itself.  In `v1.py`, a
candidate that is a member of the scene is accepted immediately
(`if not shapes or shape in shapes: return False`): with the scene
`[candA, candB]` and candidate `candA`, the member `candB` (coincident
with `candA`) passes all three filter levels — a non-`Separate`
verdict — yet `is_shape_overlapped_any` returns `false` ("may place")
without consulting `candB` at all. -/
theorem scene_member_candidate_accepted_cex :
    V1.is_shape_overlapped_any candA [candA, candB] = false
    ∧ V1.level_check (V1.get_shape_center candA) (V1.get_shape_radius candA)
        (V1.get_shape_bounds candA) candB = true := by
  constructor
  · norm_num [V1.is_shape_overlapped_any, V1.refMem, candA, candB]
  · norm_num [V1.level_check,
      V1.are_centers_close_enough, V1.get_circle_relationship, V1.get_squared_distance,
      V1.get_shape_center, V1.get_shape_radius, V1.get_shape_dimensions, V1.get_shape_bounds,
      V1.calculate_bounds_from_center, V1.box_check, V1.is_horizontally_separate,
      V1.is_vertically_separate, V1.is_box_inside_another, V1.CIRCLE_SEPARATE,
      V1.CIRCLE_A_INSIDE_B, V1.BOX_SEPARATE, V1.BOX_A_INSIDE_B, candA, candB]

/-- C3 amended: the `main.py` facade returns true exactly when some scene
member distinct by identity from the candidate collides pairwise (the
candidate is excluded only from self-comparison); the `v1.py` facade
additionally accepts immediately — without comparing against the other
members — whenever the candidate is, by identity, already a member of
the scene (or the scene is empty), and otherwise returns true exactly
when some member passes all three filter levels. -/
theorem overlapped_any_characterized (s : Shape) (L : List Shape) :
    (MainPy.is_shape_overlapped_any s L = true ↔
      ∃ o ∈ L, o.ref ≠ s.ref ∧ MainPy.pair_collides s.poly o.poly = true)
    ∧ (V1.is_shape_overlapped_any s L = true ↔
      (V1.refMem s L = false ∧
        ∃ o ∈ L, V1.level_check (V1.get_shape_center s) (V1.get_shape_radius s)
          (V1.get_shape_bounds s) o = true)) := by
  refine ⟨mainpy_overlapped_iff s L, ?_⟩
  unfold V1.is_shape_overlapped_any
  by_cases hm : V1.refMem s L = true
  · simp [hm]
  · have hm' : V1.refMem s L = false := by simpa using hm
    cases L with
    | nil => simp
    | cons o rest => simp [hm', v1_loop_iff]

/-- Helper: four-way characterization of the `v1.py` box classifier in
terms of its own separation and containment predicates, one equivalence
per relationship code. -/
theorem box_check_characterized (A B : V1.Box4) :
    (V1.box_check A B = V1.BOX_SEPARATE ↔
      (V1.is_horizontally_separate A.1 A.2.1 B.1 B.2.1 ||
       V1.is_vertically_separate A.2.2.1 A.2.2.2 B.2.2.1 B.2.2.2) = true)
    ∧ (V1.box_check A B = V1.BOX_A_INSIDE_B ↔
      ((V1.is_horizontally_separate A.1 A.2.1 B.1 B.2.1 ||
        V1.is_vertically_separate A.2.2.1 A.2.2.2 B.2.2.1 B.2.2.2) = false ∧
       V1.is_box_inside_another A B = true))
    ∧ (V1.box_check A B = V1.BOX_B_INSIDE_A ↔
      ((V1.is_horizontally_separate A.1 A.2.1 B.1 B.2.1 ||
        V1.is_vertically_separate A.2.2.1 A.2.2.2 B.2.2.1 B.2.2.2) = false ∧
       V1.is_box_inside_another A B = false ∧
       V1.is_box_inside_another B A = true))
    ∧ (V1.box_check A B = V1.BOX_OVERLAP ↔
      ((V1.is_horizontally_separate A.1 A.2.1 B.1 B.2.1 ||
        V1.is_vertically_separate A.2.2.1 A.2.2.2 B.2.2.1 B.2.2.2) = false ∧
       V1.is_box_inside_another A B = false ∧
       V1.is_box_inside_another B A = false)) := by
  unfold V1.box_check
  split_ifs with h1 h2 h3 <;>
    simp_all [V1.BOX_SEPARATE, V1.BOX_OVERLAP, V1.BOX_A_INSIDE_B, V1.BOX_B_INSIDE_A]
  rcases h1 with h1 | h1 <;> simp_all

/-- Helper: the box separation condition is symmetric in its arguments. -/
theorem box_sep_symm (A B : V1.Box4) :
    (V1.is_horizontally_separate A.1 A.2.1 B.1 B.2.1 ||
     V1.is_vertically_separate A.2.2.1 A.2.2.2 B.2.2.1 B.2.2.2)
    = (V1.is_horizontally_separate B.1 B.2.1 A.1 A.2.1 ||
       V1.is_vertically_separate B.2.2.1 B.2.2.2 A.2.2.1 A.2.2.2) := by
  rw [Bool.eq_iff_iff]
  simp [V1.is_horizontally_separate, V1.is_vertically_separate]
  tauto

/-- C5: for bounding boxes satisfying `left ≤ right` and `bottom ≤ top`,
the `v1.py` box classifier returns `BOX_SEPARATE` iff the x-intervals or
the y-intervals are disjoint under strict inequality (so exactly touching
boxes are not separate); when not separate it returns a containment
verdict exactly when all four edges of one box lie within or equal to
the corresponding edges of the other (equal bounds imply containment),
and `BOX_OVERLAP` exactly when neither box contains the other. -/
theorem box_check_four_way (la ra ba ta lb rb bb tb : ℚ)
    (hA1 : la ≤ ra) (hA2 : ba ≤ ta) (hB1 : lb ≤ rb) (hB2 : bb ≤ tb) :
    (V1.box_check (la, ra, ba, ta) (lb, rb, bb, tb) = V1.BOX_SEPARATE ↔
      (ra < lb ∨ rb < la ∨ ta < bb ∨ tb < ba))
    ∧ ((V1.box_check (la, ra, ba, ta) (lb, rb, bb, tb) = V1.BOX_A_INSIDE_B ∨
        V1.box_check (la, ra, ba, ta) (lb, rb, bb, tb) = V1.BOX_B_INSIDE_A) ↔
      ((la ≥ lb ∧ ra ≤ rb ∧ ba ≥ bb ∧ ta ≤ tb) ∨
       (lb ≥ la ∧ rb ≤ ra ∧ bb ≥ ba ∧ tb ≤ ta)))
    ∧ (V1.box_check (la, ra, ba, ta) (lb, rb, bb, tb) = V1.BOX_OVERLAP ↔
      (¬(ra < lb ∨ rb < la ∨ ta < bb ∨ tb < ba) ∧
       ¬(la ≥ lb ∧ ra ≤ rb ∧ ba ≥ bb ∧ ta ≤ tb) ∧
       ¬(lb ≥ la ∧ rb ≤ ra ∧ bb ≥ ba ∧ tb ≤ ta))) := by
  simp only [V1.box_check, V1.is_horizontally_separate, V1.is_vertically_separate,
    V1.is_box_inside_another, Bool.or_eq_true, Bool.and_eq_true, decide_eq_true_eq]
  split_ifs with h1 h2 h3 <;>
    simp only [V1.BOX_SEPARATE, V1.BOX_OVERLAP, V1.BOX_A_INSIDE_B, V1.BOX_B_INSIDE_A] <;>
    norm_num
  · refine ⟨by tauto, ⟨?_, ?_⟩, ?_⟩
    · intro p1 p2 p3
      rcases h1 with (h | h) | (h | h) <;> linarith
    · intro p1 p2 p3
      rcases h1 with (h | h) | (h | h) <;> linarith
    · intro p1 p2 p3 p4 p5
      exfalso
      rcases h1 with (h | h) | (h | h) <;> linarith
  · obtain ⟨⟨⟨c1, c2⟩, c3⟩, c4⟩ := h2
    refine ⟨⟨by linarith, by linarith, by linarith, by linarith⟩,
      Or.inl ⟨c1, c2, c3, c4⟩, ?_⟩
    intro p1 p2 p3 p4 p5
    exfalso
    have := p5 c1 c2 c3
    linarith
  · obtain ⟨⟨⟨d1, d2⟩, d3⟩, d4⟩ := h3
    refine ⟨⟨by linarith, by linarith, by linarith, by linarith⟩,
      Or.inr ⟨d1, d2, d3, d4⟩, ?_⟩
    intro p1 p2 p3 p4 p5
    exact ⟨d1, d2, d3, d4⟩
  · push_neg at h1 h2 h3
    obtain ⟨⟨s1, s2⟩, s3, s4⟩ := h1
    refine ⟨⟨by linarith, by linarith, by linarith, by linarith⟩, ⟨?_, ?_⟩,
      ⟨by linarith, by linarith, by linarith, by linarith⟩, ?_, ?_⟩
    · intro p1 p2 p3
      exact lt_of_not_le (fun hc => absurd (h2 ⟨⟨p1, p2⟩, p3⟩) (not_lt.mpr hc))
    · intro p1 p2 p3
      exact lt_of_not_le (fun hc => absurd (h3 ⟨⟨p1, p2⟩, p3⟩) (not_lt.mpr hc))
    · intro p1 p2 p3
      exact lt_of_not_le (fun hc => absurd (h2 ⟨⟨p1, p2⟩, p3⟩) (not_lt.mpr hc))
    · intro p1 p2 p3
      exact lt_of_not_le (fun hc => absurd (h3 ⟨⟨p1, p2⟩, p3⟩) (not_lt.mpr hc))

/-- Witness for `box_check_four_way`: two unit-height boxes whose edges
exactly touch at `x = 1` are not classified `BOX_SEPARATE`. -/
theorem box_check_four_way_w :
    V1.box_check (0, 1, 0, 1) (1, 2, 0, 1) ≠ V1.BOX_SEPARATE := by
  intro h
  have hiff := (box_check_four_way 0 1 0 1 1 2 0 1 (by norm_num) (by norm_num)
    (by norm_num) (by norm_num)).1
  have hc := hiff.mp h
  norm_num at hc

/-- Helper: the code's `is_separating_axis` is symmetric in the two
polygons (the projection-interval comparison is symmetric). -/
theorem is_separating_axis_swap (p q : List Point) (a : Point) :
    MainPy.is_separating_axis p q a = MainPy.is_separating_axis q p a := by
  simp [MainPy.is_separating_axis, Bool.or_comm]

/-- Helper: `sat_check` is symmetric: the candidate axis set is the same
for both argument orders and the per-axis test is symmetric. -/
theorem sat_check_swap (p q : List Point) :
    MainPy.sat_check p q = MainPy.sat_check q p := by
  unfold MainPy.sat_check
  rw [List.any_append, List.any_append]
  simp only [is_separating_axis_swap p q]
  rw [Bool.or_comm]

/-- Helper: the two-directional containment test swaps its components
under argument swap. -/
theorem contain_check_swap (p q : List Point) :
    MainPy.contain_check p q
      = ((MainPy.contain_check q p).2, (MainPy.contain_check q p).1) := rfl

/-- Helper: the squared center distance is symmetric in its arguments. -/
theorem get_squared_distance_symm (point1 point2 : Point) :
    V1.get_squared_distance point1 point2 = V1.get_squared_distance point2 point1 := by
  unfold V1.get_squared_distance
  ring

/-- Helper: four-way characterization of the `v1.py` circle classifier in
terms of its own separation and containment conditions, one equivalence
per relationship code. -/
theorem circle_rel_characterized (center1 : Point) (radius1 : ℚ)
    (center2 : Point) (radius2 : ℚ) :
    (V1.get_circle_relationship center1 radius1 center2 radius2 = V1.CIRCLE_SEPARATE ↔
      V1.get_squared_distance center1 center2 > (radius1 + radius2) ^ 2)
    ∧ (V1.get_circle_relationship center1 radius1 center2 radius2 = V1.CIRCLE_A_INSIDE_B ↔
      (¬(V1.get_squared_distance center1 center2 > (radius1 + radius2) ^ 2) ∧
       (V1.get_squared_distance center1 center2 ≤ (radius2 - radius1) ^ 2 ∧ radius1 ≤ radius2)))
    ∧ (V1.get_circle_relationship center1 radius1 center2 radius2 = V1.CIRCLE_B_INSIDE_A ↔
      (¬(V1.get_squared_distance center1 center2 > (radius1 + radius2) ^ 2) ∧
       ¬(V1.get_squared_distance center1 center2 ≤ (radius2 - radius1) ^ 2 ∧ radius1 ≤ radius2) ∧
       (V1.get_squared_distance center1 center2 ≤ (radius1 - radius2) ^ 2 ∧ radius2 ≤ radius1)))
    ∧ (V1.get_circle_relationship center1 radius1 center2 radius2 = V1.CIRCLE_OVERLAP ↔
      (¬(V1.get_squared_distance center1 center2 > (radius1 + radius2) ^ 2) ∧
       ¬(V1.get_squared_distance center1 center2 ≤ (radius2 - radius1) ^ 2 ∧ radius1 ≤ radius2) ∧
       ¬(V1.get_squared_distance center1 center2 ≤ (radius1 - radius2) ^ 2 ∧ radius2 ≤ radius1))) := by
  unfold V1.get_circle_relationship
  dsimp only
  split_ifs with h1 h2 h3 <;>
    simp_all [V1.CIRCLE_SEPARATE, V1.CIRCLE_OVERLAP, V1.CIRCLE_A_INSIDE_B, V1.CIRCLE_B_INSIDE_A]

/-- C7 counterexample: the claim states that swapping the classifier's
arguments swaps the two containment verdicts: `classify(A,B) = AContainsB`
iff `classify(B,A) = BContainsA`, i.e. `box_check A B = BOX_B_INSIDE_A`
iff `box_check B A = BOX_A_INSIDE_B`, and likewise for the circle
classifier.  For two identical boxes — and likewise for two identical
circles — both argument orders return the A-inside-B code (that branch
is tested first), so the left side is false while the right side is
true, for the box and the circle classifier alike. -/
theorem classifier_swap_symmetry_cex :
    ¬(V1.box_check (0, 1, 0, 1) (0, 1, 0, 1) = V1.BOX_B_INSIDE_A ↔
      V1.box_check (0, 1, 0, 1) (0, 1, 0, 1) = V1.BOX_A_INSIDE_B)
    ∧ ¬(V1.get_circle_relationship (0, 0) 1 (0, 0) 1 = V1.CIRCLE_B_INSIDE_A ↔
      V1.get_circle_relationship (0, 0) 1 (0, 0) 1 = V1.CIRCLE_A_INSIDE_B) := by
  constructor
  · decide
  · norm_num [V1.get_circle_relationship, V1.get_squared_distance, V1.CIRCLE_SEPARATE,
      V1.CIRCLE_A_INSIDE_B, V1.CIRCLE_B_INSIDE_A]

/-- C7 amended: classification is symmetric under argument swap for the
`Separate` and `Overlapping` verdicts of both the box classifier and the
circle classifier, for the SAT test, and for the two-directional
containment test; the box and circle containment verdicts swap under
argument swap whenever the two extents are not mutually containing —
when each extent contains the other (identical boxes, identical
circles), both argument orders report the first argument inside the
second. -/
theorem classifier_swap_symmetry (A B : V1.Box4) (c1 : Point) (r1 : ℚ)
    (c2 : Point) (r2 : ℚ) (p q : List Point) :
    (V1.box_check A B = V1.BOX_SEPARATE ↔ V1.box_check B A = V1.BOX_SEPARATE)
    ∧ (V1.box_check A B = V1.BOX_OVERLAP ↔ V1.box_check B A = V1.BOX_OVERLAP)
    ∧ (¬(V1.is_box_inside_another A B = true ∧ V1.is_box_inside_another B A = true) →
        (V1.box_check A B = V1.BOX_B_INSIDE_A ↔ V1.box_check B A = V1.BOX_A_INSIDE_B))
    ∧ (V1.get_circle_relationship c1 r1 c2 r2 = V1.CIRCLE_SEPARATE ↔
        V1.get_circle_relationship c2 r2 c1 r1 = V1.CIRCLE_SEPARATE)
    ∧ (V1.get_circle_relationship c1 r1 c2 r2 = V1.CIRCLE_OVERLAP ↔
        V1.get_circle_relationship c2 r2 c1 r1 = V1.CIRCLE_OVERLAP)
    ∧ (¬((V1.get_squared_distance c1 c2 ≤ (r2 - r1) ^ 2 ∧ r1 ≤ r2) ∧
         (V1.get_squared_distance c1 c2 ≤ (r1 - r2) ^ 2 ∧ r2 ≤ r1)) →
        (V1.get_circle_relationship c1 r1 c2 r2 = V1.CIRCLE_B_INSIDE_A ↔
          V1.get_circle_relationship c2 r2 c1 r1 = V1.CIRCLE_A_INSIDE_B))
    ∧ MainPy.sat_check p q = MainPy.sat_check q p
    ∧ MainPy.contain_check p q
        = ((MainPy.contain_check q p).2, (MainPy.contain_check q p).1) := by
  obtain ⟨a0, a2, a3, a1⟩ := box_check_characterized A B
  obtain ⟨b0, b2, b3, b1⟩ := box_check_characterized B A
  obtain ⟨d0, d2, d3, d1⟩ := circle_rel_characterized c1 r1 c2 r2
  obtain ⟨e0, e2, e3, e1⟩ := circle_rel_characterized c2 r2 c1 r1
  rw [get_squared_distance_symm c2 c1, add_comm r2 r1] at e0 e2 e3 e1
  refine ⟨?_, ?_, ?_, ?_, ?_, ?_, sat_check_swap p q, contain_check_swap p q⟩
  · rw [a0, b0, box_sep_symm]
  · rw [a1, b1, box_sep_symm A B]
    constructor
    · rintro ⟨u, v, w⟩
      exact ⟨u, w, v⟩
    · rintro ⟨u, v, w⟩
      exact ⟨u, w, v⟩
  · intro hmut
    rw [a3, b2, box_sep_symm A B]
    constructor
    · rintro ⟨u, v, w⟩
      exact ⟨u, w⟩
    · rintro ⟨u, w⟩
      refine ⟨u, ?_, w⟩
      cases hAB : V1.is_box_inside_another A B
      · rfl
      · exact absurd ⟨hAB, w⟩ hmut
  · rw [d0, e0]
  · rw [d1, e1]
    constructor
    · rintro ⟨u, v, w⟩
      exact ⟨u, w, v⟩
    · rintro ⟨u, v, w⟩
      exact ⟨u, w, v⟩
  · intro hmut
    rw [d3, e2]
    constructor
    · rintro ⟨u, v, w⟩
      exact ⟨u, w⟩
    · rintro ⟨u, w⟩
      exact ⟨u, fun hAB => hmut ⟨hAB, w⟩, w⟩

/-- Witness for `classifier_swap_symmetry`: a strictly larger box against
a strictly smaller one, and a strictly larger circle against a strictly
smaller one, where the containment swaps hold. -/
theorem classifier_swap_symmetry_w :
    (V1.box_check (0, 3, 0, 3) (1, 2, 1, 2) = V1.BOX_B_INSIDE_A ↔
      V1.box_check (1, 2, 1, 2) (0, 3, 0, 3) = V1.BOX_A_INSIDE_B)
    ∧ (V1.get_circle_relationship (0, 0) 3 (1, 0) 1 = V1.CIRCLE_B_INSIDE_A ↔
      V1.get_circle_relationship (1, 0) 1 (0, 0) 3 = V1.CIRCLE_A_INSIDE_B) :=
  ⟨(classifier_swap_symmetry (0, 3, 0, 3) (1, 2, 1, 2) (0, 0) 3 (1, 0) 1 [] []).2.2.1
      (by decide),
   (classifier_swap_symmetry (0, 3, 0, 3) (1, 2, 1, 2) (0, 0) 3 (1, 0) 1 [] []).2.2.2.2.2.1
      (by norm_num [V1.get_squared_distance])⟩

/-- C6: whenever the bounding circles of the two shapes overlap or touch
(squared center distance at most the square of the sum of the radii,
radii non-negative), the Manhattan prefilter passes: `|Δx| + |Δy| ≤
1.5 × (radiusA + radiusB)`.  The prefilter never rejects a pair whose
bounding circles the exact circle test would judge overlapping. -/
theorem manhattan_prefilter_no_false_reject
    (center : Point) (radius : ℚ) (shape : Shape)
    (hr1 : 0 ≤ radius) (hr2 : 0 ≤ V1.get_shape_radius shape)
    (hclose : V1.get_squared_distance center (V1.get_shape_center shape)
        ≤ (radius + V1.get_shape_radius shape) ^ 2) :
    V1.are_centers_close_enough center radius shape = true := by
  unfold V1.are_centers_close_enough
  simp only [decide_eq_true_eq]
  unfold V1.get_squared_distance V1.get_shape_center at hclose
  set r2 := V1.get_shape_radius shape with hr2def
  set dx := center.1 - shape.x with hdx
  set dy := center.2 - shape.y with hdy
  have h1 : |dx| ^ 2 + |dy| ^ 2 ≤ (radius + r2) ^ 2 := by
    rw [sq_abs, sq_abs]
    exact hclose
  nlinarith [abs_nonneg dx, abs_nonneg dy, sq_nonneg (|dx| - |dy|),
    sq_nonneg (|dx| + |dy|), hr1, hr2]

/-- Witness for `manhattan_prefilter_no_false_reject`: a point circle at
the center of `candEmpty`. -/
theorem manhattan_prefilter_no_false_reject_w :
    V1.are_centers_close_enough (0, 0) 0 candEmpty = true :=
  manhattan_prefilter_no_false_reject (0, 0) 0 candEmpty (le_refl 0)
    (by norm_num [V1.get_shape_radius, V1.get_shape_dimensions, candEmpty])
    (by norm_num [V1.get_squared_distance, V1.get_shape_center, V1.get_shape_radius,
      V1.get_shape_dimensions, candEmpty])

/-- C10 counterexample: the claim states that two candidate shapes with
equal centers and equal stretch pairs receive the same verdict from the
`v1.py` facade against the same scene, regardless of their polygon
vertices.  `candA` and `candEmpty` have equal centers and stretch pairs
(they differ in their vertex lists — and, necessarily, in identity), yet
against the scene `[candA]` the former is accepted immediately (it is a
scene member by identity) while the latter collides: the results differ. -/
theorem v1_verdict_from_center_stretch_cex :
    candA.x = candEmpty.x ∧ candA.y = candEmpty.y
    ∧ candA.stretch_wid = candEmpty.stretch_wid
    ∧ candA.stretch_len = candEmpty.stretch_len
    ∧ candA.poly ≠ candEmpty.poly
    ∧ V1.is_shape_overlapped_any candA [candA] = false
    ∧ V1.is_shape_overlapped_any candEmpty [candA] = true := by
  refine ⟨rfl, rfl, rfl, rfl, by decide, ?_, ?_⟩
  · norm_num [V1.is_shape_overlapped_any, V1.refMem, candA]
  · norm_num [V1.is_shape_overlapped_any, V1.refMem, V1.overlapped_loop, V1.level_check,
      V1.are_centers_close_enough, V1.get_circle_relationship, V1.get_squared_distance,
      V1.get_shape_center, V1.get_shape_radius, V1.get_shape_dimensions, V1.get_shape_bounds,
      V1.calculate_bounds_from_center, V1.box_check, V1.is_horizontally_separate,
      V1.is_vertically_separate, V1.is_box_inside_another, V1.CIRCLE_SEPARATE,
      V1.CIRCLE_A_INSIDE_B, V1.BOX_SEPARATE, V1.BOX_A_INSIDE_B, candA, candEmpty]

/-- C10 amended: the `v1.py` facade's verdict depends only on the
candidate's center, its stretch pair, and its identity-membership status
in the scene: two candidates with equal centers, equal stretch pairs and
the same identity-membership status receive the same verdict against the
same scene regardless of their polygon vertices — no tier ever reads the
vertex list. -/
theorem v1_verdict_from_center_stretch (s1 s2 : Shape) (L : List Shape)
    (hx : s1.x = s2.x) (hy : s1.y = s2.y)
    (hw : s1.stretch_wid = s2.stretch_wid) (hl : s1.stretch_len = s2.stretch_len)
    (hm : V1.refMem s1 L = V1.refMem s2 L) :
    V1.is_shape_overlapped_any s1 L = V1.is_shape_overlapped_any s2 L := by
  have hc : V1.get_shape_center s1 = V1.get_shape_center s2 := by
    simp [V1.get_shape_center, hx, hy]
  have hd : V1.get_shape_dimensions s1 = V1.get_shape_dimensions s2 := by
    simp [V1.get_shape_dimensions, hw, hl]
  have hr : V1.get_shape_radius s1 = V1.get_shape_radius s2 := by
    simp [V1.get_shape_radius, hd]
  have hb : V1.get_shape_bounds s1 = V1.get_shape_bounds s2 := by
    simp [V1.get_shape_bounds, hd, hx, hy]
  unfold V1.is_shape_overlapped_any
  rw [hm, hc, hr, hb]

/-- Witness for `v1_verdict_from_center_stretch`: two fresh candidates
with different vertex lists but equal center and stretch, neither a
member of the scene `[candA]`. -/
theorem v1_verdict_from_center_stretch_w :
    V1.is_shape_overlapped_any ⟨3, 0, 0, 3, 4, []⟩ [candA]
      = V1.is_shape_overlapped_any ⟨4, 0, 0, 3, 4, unitSq⟩ [candA] :=
  v1_verdict_from_center_stretch ⟨3, 0, 0, 3, 4, []⟩ ⟨4, 0, 0, 3, 4, unitSq⟩ [candA]
    rfl rfl rfl rfl (by decide)
